import Mathlib

/-!
Shallow embedding of `src/app.js` (NR-NTN satellite dashboard).

JavaScript values and operations are modelled as follows:

* a JS plain object used as a string-to-string record (`this.parameters`,
  the parsed local-storage snapshot, URL query parameters) is an
  association list `List (String × String)` in insertion order, with
  `objGet` / `objSet` / `objKeys` mirroring property read, property write
  and `Object.keys`;
* a JS `Map` from key to array of callbacks (`this.subscribers`) is an
  association list `List (String × List Nat)`; callbacks are modelled as
  inert numeric identifiers, and a notification run is recorded as a list
  of `CbEvent` invocation records instead of executing closures;
* a thrown JS exception is `Except.error (e : JsError)`;
* the DOM surface the code consults (form controls in the parameter
  panel, nav buttons carrying `data-page`, page containers, localStorage,
  the displayed URL query) is carried explicitly in `Dom` and in fields
  of `PM`.
-/

/-- JS exceptions thrown by the code paths modelled here: `TypeError`
from a property access on `null` (failed DOM lookup), and the
`SyntaxError` thrown by `JSON.parse` on input that is not valid JSON. -/
inductive JsError
  | typeErr (msg : String)
  | jsonErr (text : String)
deriving DecidableEq, Repr

/-- Decidable equality on `Except` results, so that concrete runs of the
modelled operations can be checked by `decide`. -/
instance exceptDecEq {ε α : Type} [DecidableEq ε] [DecidableEq α] :
    DecidableEq (Except ε α) := fun x y =>
  match x, y with
  | .ok a, .ok b =>
      if h : a = b then isTrue (by rw [h])
      else isFalse (fun hh => h (Except.ok.inj hh))
  | .error a, .error b =>
      if h : a = b then isTrue (by rw [h])
      else isFalse (fun hh => h (Except.error.inj hh))
  | .ok _, .error _ => isFalse (fun hh => Except.noConfusion hh)
  | .error _, .ok _ => isFalse (fun hh => Except.noConfusion hh)

/-- Property read on a JS string-valued object: first matching key, or
`undefined` (`none`). JS objects have at most one entry per key, so the
first match is the only one for objects built by `objSet`. -/
def objGet (m : List (String × String)) (k : String) : Option String :=
  match m with
  | [] => none
  | (k', v) :: rest => if k' = k then some v else objGet rest k

/-- Property write on a JS string-valued object: overwrite in place when
the key exists, otherwise append (insertion order). -/
def objSet (m : List (String × String)) (k v : String) : List (String × String) :=
  match m with
  | [] => [(k, v)]
  | (k', v') :: rest => if k' = k then (k, v) :: rest else (k', v') :: objSet rest k v

/-- `Object.keys`, in insertion order. -/
def objKeys (m : List (String × String)) : List String :=
  m.map Prod.fst

/-- Value of the last entry for key `k` in an association list (for a
list with duplicate keys, later entries shadow earlier ones when the
list is replayed by a fold, as in the restore loops). -/
def lastVal (k : String) : List (String × String) → Option String
  | [] => none
  | (k', v') :: rest =>
      match lastVal k rest with
      | some v => some v
      | none => if k' = k then some v' else none

/-- Content of the `localStorage` slot `ntn-satellite-params`: either a
JSON text serializing a string-to-string object (the only thing
`saveToLocalStorage` ever writes), or a non-empty text that `JSON.parse`
rejects (the slot can be corrupted outside the app). -/
inductive StoredValue
  | obj (m : List (String × String))
  | corrupt (s : String)
deriving DecidableEq, Repr

/-- Platform builtin `JSON.parse` restricted to the two stored shapes:
a serialized string-to-string object parses back to that object, and a
malformed text throws a `SyntaxError`. -/
def jsonParse : StoredValue → Except JsError (List (String × String))
  | .obj m => .ok m
  | .corrupt s => .error (.jsonErr s)

/-- DOM surface consulted by `app.js`: `controls` are the parameter-panel
form controls as (key, current value) pairs, where the key is the
control's `name`/`id` (`document.getElementById(key)` and
`querySelector([name=key])` resolve to the control with that key);
`navPages` are the `data-page` values carried by `.nav-btn` elements;
`contentPages` are the ids of `.page-content` containers. -/
structure Dom where
  controls : List (String × String)
  navPages : List String
  contentPages : List String
deriving DecidableEq, Repr

/-- Keys of the form controls: the parameter keys known to the UI. -/
def domKeys (d : Dom) : List String :=
  d.controls.map Prod.fst

/-- Assignment `input.value = v` on the control with key `k`. -/
def domSetVal (d : Dom) (k v : String) : Dom :=
  { d with controls := d.controls.map (fun c => if c.1 = k then (c.1, v) else c) }

/-- Invocation record of one subscriber callback: a key-specific
subscriber receives `(newValue, oldValue, key)` (line 64), a wildcard
subscriber receives `(snapshot, key)` (line 70). -/
inductive CbEvent
  | keyCall (cb : Nat) (newValue : String) (oldValue : Option String) (key : String)
  | wildCall (cb : Nat) (snapshot : List (String × String)) (key : String)
deriving DecidableEq, Repr

/-- State of a `ParameterManager` together with the browser state it
reads and writes: `storage` is the `ntn-satellite-params` localStorage
slot (`none` = no item), `urlQuery` the query string of the displayed
URL. -/
structure PM where
  parameters : List (String × String)
  subscribers : List (String × List Nat)
  storage : Option StoredValue
  urlQuery : List (String × String)
deriving DecidableEq, Repr

/-- `Map.get`: first entry for the key (a `Map` has unique keys). -/
def mapGet (subs : List (String × List Nat)) (k : String) : Option (List Nat) :=
  match subs with
  | [] => none
  | (k', l) :: rest => if k' = k then some l else mapGet rest k

/-- `Map.has`. -/
def mapHas (subs : List (String × List Nat)) (k : String) : Bool :=
  (mapGet subs k).isSome

/-- `mapGet` with a default, used to state notification-order results. -/
def mapGetD (subs : List (String × List Nat)) (k : String) (d : List Nat) : List Nat :=
  (mapGet subs k).getD d

/-- Append `cb` to the callback array of every entry for `k`
(`this.subscribers.get(key).push(callback)`). -/
def mapPushAt (subs : List (String × List Nat)) (k : String) (cb : Nat) :
    List (String × List Nat) :=
  subs.map (fun e => if e.1 = k then (e.1, e.2 ++ [cb]) else e)

/-- `ParameterManager.subscribe` (lines 54-59): create an empty entry for
the key when absent (`Map.set` appends at the end), then push the
callback onto the key's array. -/
def subscribe (pm : PM) (key : String) (cb : Nat) : PM :=
  let subs := if mapHas pm.subscribers key then pm.subscribers
              else pm.subscribers ++ [(key, [])]
  { pm with subscribers := mapPushAt subs key cb }

/-- `ParameterManager.getAllParameters` (lines 50-52): a spread copy of
the mapping; with immutable lists the copy is the value itself. -/
def getAllParameters (pm : PM) : List (String × String) :=
  pm.parameters

/-- `ParameterManager.getParameter` (lines 46-48). -/
def getParameter (pm : PM) (key : String) : Option String :=
  objGet pm.parameters key

/-- `ParameterManager.notifySubscribers` (lines 61-73): run the key's
subscribers in array order with `(newValue, oldValue, key)`, then run the
wildcard subscribers with `(snapshot, key)`. Callbacks are inert
identifiers, so the run is returned as the list of invocation records in
invocation order. -/
def notifySubscribers (pm : PM) (key newValue : String) (oldValue : Option String) :
    List CbEvent :=
  (match mapGet pm.subscribers key with
   | some cbs => cbs.map (fun cb => CbEvent.keyCall cb newValue oldValue key)
   | none => []) ++
  (match mapGet pm.subscribers "*" with
   | some cbs => cbs.map (fun cb => CbEvent.wildCall cb (getAllParameters pm) key)
   | none => [])

/-- `ParameterManager.saveToLocalStorage` (lines 75-77):
`localStorage.setItem` of the JSON serialization of the mapping. -/
def saveToLocalStorage (pm : PM) : PM :=
  { pm with storage := some (.obj pm.parameters) }

/-- `ParameterManager.updateURLParams` (lines 104-114): for every key of
the mapping, a truthy (non-empty) value is written into the displayed
URL's query string and a falsy (empty) value deletes its query key. -/
def updateURLParams (pm : PM) : PM :=
  let step := fun q k =>
    match objGet pm.parameters k with
    | some v => if v = "" then q.filter (fun e => e.1 ≠ k) else objSet q k v
    | none => q
  { pm with urlQuery := (objKeys pm.parameters).foldl step pm.urlQuery }

/-- `ParameterManager.updateParameter` (lines 36-44): record the old
value, overwrite the mapping, notify subscribers, persist to
localStorage, and rewrite the displayed URL. Returns the new state and
the callback-invocation trace. -/
def updateParameter (pm : PM) (key value : String) : PM × List CbEvent :=
  let oldValue := objGet pm.parameters key
  let pm1 := { pm with parameters := objSet pm.parameters key value }
  let events := notifySubscribers pm1 key value oldValue
  (updateURLParams (saveToLocalStorage pm1), events)

/-- Body shared by the two restore loops (lines 83-89 and 95-101): when a
form control with the entry's key exists, write the value into the
control and into the mapping; otherwise skip the entry. -/
def restoreStep (dom : Dom) (pm : PM) (k v : String) : Dom × PM :=
  if k ∈ domKeys dom then
    (domSetVal dom k v, { pm with parameters := objSet pm.parameters k v })
  else (dom, pm)

/-- Sequential `forEach` over the entries of a parsed snapshot or of the
URL query, applying `restoreStep` to each. -/
def restoreAll (dom : Dom) (pm : PM) : List (String × String) → Dom × PM
  | [] => (dom, pm)
  | (k, v) :: rest =>
      let s := restoreStep dom pm k v
      restoreAll s.1 s.2 rest

/-- `ParameterManager.loadFromLocalStorage` (lines 79-91): a missing
(null) item is falsy and skipped; otherwise the item is `JSON.parse`d —
the parse failure propagates as a thrown `SyntaxError` (there is no
try/catch) — and each key of the parsed object that has a matching form
control is restored. -/
def loadFromLocalStorage (dom : Dom) (pm : PM) : Except JsError (Dom × PM) :=
  match pm.storage with
  | none => .ok (dom, pm)
  | some saved =>
      match jsonParse saved with
      | .error e => .error e
      | .ok params => .ok (restoreAll dom pm params)

/-- `ParameterManager.loadFromURLParams` (lines 93-102): each query
parameter with a matching form control is restored. -/
def loadFromURLParams (dom : Dom) (pm : PM) (query : List (String × String)) : Dom × PM :=
  restoreAll dom pm query

/-- `ParameterManager.initializeParameters` (lines 10-19), data part:
scan the parameter-panel controls and record each control's value under
its key (the input listeners it attaches feed `updateParameter` and are
modelled by applying `updateParameter` directly). -/
def initParameters (controls : List (String × String)) : List (String × String) :=
  controls.foldl (fun m c => objSet m c.1 c.2) []

/-- Fresh `ParameterManager` as built by the constructor (lines 2-8) on
a page whose localStorage slot holds `slot` and whose URL query is
`query`: the mapping is initialized from the form controls, no
subscribers are registered yet. -/
def pmConstruct (dom : Dom) (slot : Option StoredValue) (query : List (String × String)) : PM :=
  { parameters := initParameters dom.controls
    subscribers := []
    storage := slot
    urlQuery := query }

/-- Startup restoration on a fresh load, per `setupEventListeners`
(lines 116-125): when the `load` event fires, `loadFromURLParams()` runs
first and `loadFromLocalStorage()` runs second. -/
def freshLoad (dom : Dom) (query : List (String × String)) (slot : Option StoredValue) :
    Except JsError (Dom × PM) :=
  let pm0 := pmConstruct dom slot query
  let s1 := loadFromURLParams dom pm0 query
  loadFromLocalStorage s1.1 s1.2

/-- Replay of a sequence of `updateParameter` calls (user edits). -/
def applyUpdates (pm : PM) (us : List (String × String)) : PM :=
  us.foldl (fun acc kv => (updateParameter acc kv.1 kv.2).1) pm

/-- Parameter mapping produced by setting values through the store: a
fresh `ParameterManager` followed by any sequence of mutations. -/
def paramsSetThroughStore (dom : Dom) (us : List (String × String)) :
    List (String × String) :=
  (applyUpdates (pmConstruct dom none []) us).parameters

/-- Lifecycle hook invocations of the page components, recorded as
events: `onPageExit` / `onPageEnter` of the page with the given name. -/
inductive LifeEvent
  | pageExit (name : String)
  | pageEnter (name : String)
deriving DecidableEq, Repr

/-- Visual activation state: which nav buttons and which `.page-content`
containers currently carry the `active` class. -/
structure UiState where
  navActive : List String
  contentActive : List String
deriving DecidableEq, Repr

/-- State of the `PageManager`: the recorded current page and the keys
of its `pages` object (the registered page components). -/
structure PageMgr where
  currentPage : String
  pages : List String
deriving DecidableEq, Repr

/-- Page names registered by `PageManager.initializePages`
(lines 153-159). -/
def registeredPages : List String :=
  ["overview", "satellite-config", "trajectory", "coverage", "performance"]

/-- TypeError thrown when a `querySelector` / `getElementById` lookup
returns `null` and `.classList` is read on it (lines 172 and 177). -/
def classListOfNull : JsError :=
  .typeErr "Cannot read properties of null (reading classList)"

namespace PageManager

/-- `PageManager` constructor (lines 128-135): records `overview` as the
current page and registers the five page components; it invokes no
lifecycle hook, so the construction-time lifecycle trace is empty
(`initializePages` only runs the page constructors, which subscribe to
the store but never call `onPageEnter`). -/
def construct : PageMgr × List LifeEvent :=
  ({ currentPage := "overview", pages := registeredPages }, [])

/-- `PageManager.switchPage` (lines 168-188), with the lifecycle hook
invocations returned as a trace. In source order: clear the `active`
class from every nav button; add it on the button whose `data-page`
matches (throws a TypeError when no such button exists); clear `active`
from every `.page-content`; add it on the container with that id (throws
when absent); call the current page's `onPageExit` when the current page
is registered; record the new page as current; call the new page's
`onPageEnter` when it is registered. -/
def switchPage (dom : Dom) (mgr : PageMgr) (ui : UiState) (pageName : String) :
    Except JsError (PageMgr × UiState × List LifeEvent) :=
  let ui1 : UiState := { ui with navActive := [] }
  if pageName ∈ dom.navPages then
    let ui2 : UiState := { navActive := [pageName], contentActive := ui1.contentActive }
    let ui3 : UiState := { ui2 with contentActive := [] }
    if pageName ∈ dom.contentPages then
      let ui4 : UiState := { ui3 with contentActive := [pageName] }
      let exitEvents := if mgr.currentPage ∈ mgr.pages
                        then [LifeEvent.pageExit mgr.currentPage] else []
      let mgr1 : PageMgr := { mgr with currentPage := pageName }
      let enterEvents := if pageName ∈ mgr.pages
                         then [LifeEvent.pageEnter pageName] else []
      .ok (mgr1, ui4, exitEvents ++ enterEvents)
    else .error classListOfNull
  else .error classListOfNull

end PageManager

/-- Application state for statements that combine the store and the
page coordinator. -/
structure App where
  pm : PM
  mgr : PageMgr
  ui : UiState
deriving DecidableEq, Repr

/-- A store mutation in the application: only `pm` changes (parameter
traffic never touches the `PageManager` or the activation classes). -/
def appUpdateParameter (a : App) (k v : String) : App × List CbEvent :=
  let r := updateParameter a.pm k v
  ({ a with pm := r.1 }, r.2)

/-- Replay of a sequence of store mutations on the application state. -/
def appApplyUpdates (a : App) (us : List (String × String)) : App :=
  us.foldl (fun acc kv => (appUpdateParameter acc kv.1 kv.2).1) a

/-- `PageManager.switchPage` lifted to the application state. -/
def appSwitchPage (dom : Dom) (a : App) (name : String) :
    Except JsError (App × List LifeEvent) :=
  (PageManager.switchPage dom a.mgr a.ui name).map
    (fun r => ({ a with mgr := r.1, ui := r.2.1 }, r.2.2))

namespace PerformanceMetrics

/-- `this.maxDataPoints` of `PerformanceMetrics` (line 510). -/
def maxDataPoints : Nat := 60

/-- One entry of `this.performanceData` (line 565): the timestamp and
the two synthetic readings (the random draws are inputs of the model,
carried as exact rationals). -/
structure PerfSample where
  timestamp : Nat
  snr : ℚ
  throughput : ℚ
deriving DecidableEq, Repr

/-- `PerformanceMetrics.updateRealTimeMetrics` (lines 560-572), buffer
part: push the new sample, then `shift()` once when the length exceeds
`maxDataPoints` (the chart redraw it triggers does not touch the
buffer). -/
def updateRealTimeMetrics (data : List PerfSample) (s : PerfSample) : List PerfSample :=
  let d := data ++ [s]
  if d.length > maxDataPoints then d.tail else d

/-- Timer bookkeeping of the `PerformanceMetrics` page:
`metricsInterval` is the field `this.metricsInterval` (`none` while the
field is still `undefined`; note the source never resets it after
`clearInterval`), and `activeTimers` are the interval ids currently
scheduled in the browser (`setInterval` issues unique ids, so the list
is duplicate-free in any reachable state). -/
structure TimerState where
  metricsInterval : Option Nat
  activeTimers : List Nat
deriving DecidableEq, Repr

/-- `PerformanceMetrics.startMetricsUpdate` (lines 548-552):
`setInterval` schedules a new timer and its id is stored in
`this.metricsInterval`. -/
def startMetricsUpdate (st : TimerState) (freshId : Nat) : TimerState :=
  { metricsInterval := some freshId, activeTimers := freshId :: st.activeTimers }

/-- `PerformanceMetrics.stopMetricsUpdate` (lines 554-558): when
`this.metricsInterval` is set, `clearInterval` it. `clearInterval` of an
id that is no longer scheduled is a platform no-op and never throws, so
the operation is total. -/
def stopMetricsUpdate (st : TimerState) : TimerState :=
  match st.metricsInterval with
  | none => st
  | some id => { st with activeTimers := st.activeTimers.erase id }

/-- `PerformanceMetrics.onPageExit` (lines 520-522). -/
def onPageExit (st : TimerState) : TimerState :=
  stopMetricsUpdate st

end PerformanceMetrics

namespace Monitoring

/-- `this.maxDataPoints` of `Monitoring` (line 632). -/
def maxDataPoints : Nat := 50

/-- One entry of `this.chartData` (lines 662-665). -/
structure MonSample where
  timestamp : Nat
  latency : ℚ
deriving DecidableEq, Repr

/-- `Monitoring.updateMetrics` (lines 658-672), buffer part: push the
new sample (whose latency is a random draw, an input here), then
`shift()` once when the length exceeds `maxDataPoints`. -/
def updateMetrics (data : List MonSample) (s : MonSample) : List MonSample :=
  let d := data ++ [s]
  if d.length > maxDataPoints then d.tail else d

end Monitoring

/-- Natural number denoted by a digit run (most significant first). -/
def digitsToNat (ds : List Char) : Nat :=
  ds.foldl (fun n c => 10 * n + (c.toNat - 48)) 0

/-- Platform builtin `parseInt` with radix 10 on the argument strings
used here: skip leading spaces, read an optional sign and then the
longest leading digit run; no digits means `NaN` (`none`). The
hexadecimal `0x` form and exponent forms are not exercised by this
code's inputs and are not modelled. -/
def parseIntJS (s : String) : Option Int :=
  let cs := s.toList.dropWhile (fun c => c = ' ')
  match cs with
  | '-' :: r =>
      let ds := r.takeWhile Char.isDigit
      if ds.isEmpty then none else some (-(digitsToNat ds : Int))
  | '+' :: r =>
      let ds := r.takeWhile Char.isDigit
      if ds.isEmpty then none else some (digitsToNat ds : Int)
  | r =>
      let ds := r.takeWhile Char.isDigit
      if ds.isEmpty then none else some (digitsToNat ds : Int)

/-- Exact decimal number, denoting `mant / 10 ^ scale`: the result of a
successful `parseFloat` on the decimal strings this code reads (all such
values are exact decimals, so no floating-point rounding is involved on
the paths modelled here). -/
structure JsNum where
  mant : Int
  scale : Nat
deriving DecidableEq, Repr

/-- Rational value denoted by a `JsNum`. -/
def JsNum.toRat (n : JsNum) : ℚ :=
  (n.mant : ℚ) / (10 : ℚ) ^ n.scale

/-- Platform builtin `parseFloat` on the argument strings used here:
skip leading spaces, read an optional sign, an integer digit run and an
optional fraction; no digits at all means `NaN` (`none`). Exponent forms
and `Infinity` are not exercised by this code's inputs and are not
modelled. -/
def parseFloatJS (s : String) : Option JsNum :=
  let cs := s.toList.dropWhile (fun c => c = ' ')
  let core := fun (sign : Int) (r : List Char) =>
    let ds := r.takeWhile Char.isDigit
    let r2 := r.dropWhile Char.isDigit
    let fs := match r2 with
      | '.' :: r3 => r3.takeWhile Char.isDigit
      | _ => []
    if ds.isEmpty ∧ fs.isEmpty then none
    else some (JsNum.mk (sign * ((digitsToNat ds : Int) * 10 ^ fs.length + digitsToNat fs))
                        fs.length)
  match cs with
  | '-' :: r => core (-1) r
  | '+' :: r => core 1 r
  | r => core 1 r

/-- JS `x || d` on a parsed number: `NaN` (`none`) and `0` (and `-0`)
are falsy and yield the default, any other number is itself. -/
def jsOrInt (v : Option Int) (d : Int) : Int :=
  match v with
  | none => d
  | some n => if n = 0 then d else n

/-- JS `x || d` on a parsed float: the value is falsy exactly when it is
`NaN` (`none`) or zero (zero mantissa). -/
def jsOrNum (v : Option JsNum) (d : JsNum) : JsNum :=
  match v with
  | none => d
  | some n => if n.mant = 0 then d else n

namespace CoverageAnalysis

/-- Satellite count read by `CoverageAnalysis.drawCoverageMap`
(line 454): `parseInt(params[..]) || 4`; a missing key is `undefined`,
which `parseInt` turns into `NaN`. -/
def numSats (params : List (String × String)) : Int :=
  jsOrInt ((objGet params "num-satellites").bind parseIntJS) 4

end CoverageAnalysis

namespace SystemOverview

/-- Start elevation read by `SystemOverview.calculateElevations`
(line 258): `parseFloat(params[..]) || 30`. -/
def startElevation (params : List (String × String)) : JsNum :=
  jsOrNum ((objGet params "start-elevation").bind parseFloatJS) (JsNum.mk 30 0)

end SystemOverview

namespace PerformanceMetrics

/-- Carrier frequency read by `PerformanceMetrics.updateMetrics`
(line 530): `parseFloat(params.frequency) || 2100`. -/
def frequency (params : List (String × String)) : JsNum :=
  jsOrNum ((objGet params "frequency").bind parseFloatJS) (JsNum.mk 2100 0)

end PerformanceMetrics

/-! ### Association-list lemmas for the JS-object model -/

theorem objGet_objSet_self (m : List (String × String)) (k v : String) :
    objGet (objSet m k v) k = some v := by
  induction m with
  | nil => simp [objGet, objSet]
  | cons e rest ih =>
      by_cases h : e.1 = k
      · simp [objSet, h, objGet]
      · simp [objSet, h, objGet, ih]

theorem objGet_objSet_of_ne (m : List (String × String)) (k v k' : String)
    (h : k' ≠ k) : objGet (objSet m k v) k' = objGet m k' := by
  have h2 : ¬ k = k' := fun hh => h hh.symm
  induction m with
  | nil => simp [objGet, objSet, h2]
  | cons e rest ih =>
      by_cases he : e.1 = k
      · subst he
        simp [objSet, objGet, h2]
      · simp [objSet, he, objGet, ih]

theorem objKeys_objSet (m : List (String × String)) (k v : String) :
    objKeys (objSet m k v) =
      if k ∈ objKeys m then objKeys m else objKeys m ++ [k] := by
  induction m with
  | nil => simp [objKeys, objSet]
  | cons e rest ih =>
      by_cases he : e.1 = k
      · subst he
        simp [objSet, objKeys]
      · have h2 : ¬(k = e.1) := fun hh => he hh.symm
        have hstep : objKeys (objSet (e :: rest) k v) = e.1 :: objKeys (objSet rest k v) := by
          simp [objSet, he, objKeys]
        rw [hstep, ih]
        by_cases hk : k ∈ objKeys rest
        · rw [if_pos hk, if_pos (show k ∈ objKeys (e :: rest) by
            simp only [objKeys, List.map_cons, List.mem_cons]
            exact Or.inr hk)]
          simp [objKeys]
        · rw [if_neg hk, if_neg (show k ∉ objKeys (e :: rest) by
            simp only [objKeys, List.map_cons, List.mem_cons]
            rintro (hc | hc)
            · exact h2 hc
            · exact hk hc)]
          simp [objKeys]

theorem nodup_objKeys_objSet (m : List (String × String)) (k v : String)
    (h : (objKeys m).Nodup) : (objKeys (objSet m k v)).Nodup := by
  rw [objKeys_objSet]
  by_cases hk : k ∈ objKeys m
  · simpa [hk] using h
  · simp only [if_neg hk]
    exact List.Nodup.append h (List.nodup_singleton k) (by simpa using hk)

theorem objGet_isSome_iff (m : List (String × String)) (k : String) :
    (objGet m k).isSome ↔ k ∈ objKeys m := by
  induction m with
  | nil => simp [objGet, objKeys]
  | cons e rest ih =>
      by_cases he : e.1 = k
      · simp [objGet, he, objKeys]
      · have : ¬(k = e.1) := fun hh => he hh.symm
        simp [objGet, he, objKeys, ih, this]

theorem objGet_eq_none_of_not_mem (m : List (String × String)) (k : String)
    (h : k ∉ objKeys m) : objGet m k = none := by
  have := (objGet_isSome_iff m k).not.mpr h
  cases hg : objGet m k
  · rfl
  · exact absurd (by simp [hg]) this

theorem lastVal_isSome_iff (k : String) (L : List (String × String)) :
    (lastVal k L).isSome ↔ k ∈ L.map Prod.fst := by
  induction L with
  | nil => simp [lastVal]
  | cons e rest ih =>
      simp only [List.map_cons, List.mem_cons]
      cases hl : lastVal k rest with
      | some v =>
          have hk : k ∈ rest.map Prod.fst := ih.mp (by simp [hl])
          simp [lastVal, hl, hk]
      | none =>
          have hk : k ∉ rest.map Prod.fst := fun hm => by
            have := ih.mpr hm
            simp [hl] at this
          by_cases he : e.1 = k
          · simp [lastVal, hl, he]
          · have h2 : ¬ k = e.1 := fun hh => he hh.symm
            simp [lastVal, hl, he, hk, h2]

theorem lastVal_eq_objGet (k : String) (L : List (String × String))
    (h : (L.map Prod.fst).Nodup) : lastVal k L = objGet L k := by
  induction L with
  | nil => rfl
  | cons e rest ih =>
      have hrest : (rest.map Prod.fst).Nodup := (List.nodup_cons.mp (by simpa using h)).2
      have hnot : e.1 ∉ rest.map Prod.fst := (List.nodup_cons.mp (by simpa using h)).1
      by_cases he : e.1 = k
      · have hnone : lastVal k rest = none := by
          cases hl : lastVal k rest with
          | none => rfl
          | some v =>
              have hm : k ∈ rest.map Prod.fst :=
                (lastVal_isSome_iff k rest).mp (by simp [hl])
              exact absurd hm (he ▸ hnot)
        simp [lastVal, hnone, he, objGet]
      · simp only [lastVal, objGet, if_neg he, ih hrest]
        cases objGet rest k <;> rfl

theorem map_fst_setVal (l : List (String × String)) (k v : String) :
    (l.map (fun c => if c.1 = k then (c.1, v) else c)).map Prod.fst =
      l.map Prod.fst := by
  induction l with
  | nil => rfl
  | cons c rest ih =>
      by_cases hc : c.1 = k <;> simp [hc, ih]

theorem domKeys_domSetVal (d : Dom) (k v : String) :
    domKeys (domSetVal d k v) = domKeys d := by
  simp only [domKeys, domSetVal]
  exact map_fst_setVal d.controls k v

theorem navPages_domSetVal (d : Dom) (k v : String) :
    (domSetVal d k v).navPages = d.navPages := rfl

theorem restoreStep_domKeys (dom : Dom) (pm : PM) (k v : String) :
    domKeys (restoreStep dom pm k v).1 = domKeys dom := by
  unfold restoreStep
  split
  · exact domKeys_domSetVal dom k v
  · rfl

theorem restoreStep_storage (dom : Dom) (pm : PM) (k v : String) :
    (restoreStep dom pm k v).2.storage = pm.storage := by
  unfold restoreStep
  split <;> rfl

theorem restoreAll_domKeys (L : List (String × String)) :
    ∀ (dom : Dom) (pm : PM), domKeys (restoreAll dom pm L).1 = domKeys dom := by
  induction L with
  | nil => intro dom pm; rfl
  | cons e rest ih =>
      intro dom pm
      show domKeys (restoreAll (restoreStep dom pm e.1 e.2).1
        (restoreStep dom pm e.1 e.2).2 rest).1 = domKeys dom
      rw [ih, restoreStep_domKeys]

theorem restoreAll_storage (L : List (String × String)) :
    ∀ (dom : Dom) (pm : PM), (restoreAll dom pm L).2.storage = pm.storage := by
  induction L with
  | nil => intro dom pm; rfl
  | cons e rest ih =>
      intro dom pm
      show (restoreAll (restoreStep dom pm e.1 e.2).1
        (restoreStep dom pm e.1 e.2).2 rest).2.storage = pm.storage
      rw [ih, restoreStep_storage]

theorem restoreAll_objGet (L : List (String × String)) :
    ∀ (dom : Dom) (pm : PM) (k : String),
      objGet (restoreAll dom pm L).2.parameters k =
        if k ∈ domKeys dom then
          (match lastVal k L with
           | some v => some v
           | none => objGet pm.parameters k)
        else objGet pm.parameters k := by
  induction L with
  | nil =>
      intro dom pm k
      show objGet pm.parameters k = _
      split <;> rfl
  | cons e rest ih =>
      intro dom pm k
      show objGet (restoreAll (restoreStep dom pm e.1 e.2).1
        (restoreStep dom pm e.1 e.2).2 rest).2.parameters k = _
      rw [ih]
      by_cases hctl : e.1 ∈ domKeys dom
      · rw [show restoreStep dom pm e.1 e.2 =
            (domSetVal dom e.1 e.2,
             { pm with parameters := objSet pm.parameters e.1 e.2 }) from by
          simp [restoreStep, hctl]]
        rw [domKeys_domSetVal]
        by_cases hk : k ∈ domKeys dom
        · rw [if_pos hk, if_pos hk]
          cases hl : lastVal k rest with
          | some v => simp [lastVal, hl]
          | none =>
              by_cases he : e.1 = k
              · subst he
                simp [lastVal, hl, objGet_objSet_self]
              · have h2 : ¬(k = e.1) := fun hh => he hh.symm
                simp [lastVal, hl, he,
                  objGet_objSet_of_ne pm.parameters e.1 e.2 k (fun hh => he hh.symm)]
        · rw [if_neg hk, if_neg hk]
          have hne : k ≠ e.1 := fun hh => hk (hh ▸ hctl)
          exact objGet_objSet_of_ne pm.parameters e.1 e.2 k hne
      · rw [show restoreStep dom pm e.1 e.2 = (dom, pm) from by
          simp [restoreStep, hctl]]
        by_cases hk : k ∈ domKeys dom
        · rw [if_pos hk, if_pos hk]
          have he : ¬(e.1 = k) := fun hh => hctl (hh ▸ hk)
          cases hl : lastVal k rest with
          | some v => simp [lastVal, hl]
          | none => simp [lastVal, hl, he]
        · rw [if_neg hk, if_neg hk]

theorem objGet_foldl_objSet (c : List (String × String)) :
    ∀ (m : List (String × String)) (k : String),
      objGet (c.foldl (fun m e => objSet m e.1 e.2) m) k =
        match lastVal k c with
        | some v => some v
        | none => objGet m k := by
  induction c with
  | nil => intro m k; rfl
  | cons e rest ih =>
      intro m k
      rw [List.foldl_cons, ih]
      cases hl : lastVal k rest with
      | some v => simp [lastVal, hl]
      | none =>
          by_cases he : e.1 = k
          · subst he
            simp [lastVal, hl, objGet_objSet_self]
          · simp [lastVal, hl, he,
              objGet_objSet_of_ne m e.1 e.2 k (fun hh => he hh.symm)]

theorem objGet_initParameters (c : List (String × String)) (k : String) :
    objGet (initParameters c) k = lastVal k c := by
  unfold initParameters
  rw [objGet_foldl_objSet]
  cases lastVal k c <;> rfl

theorem mem_objKeys_initParameters (c : List (String × String)) (k : String) :
    k ∈ objKeys (initParameters c) ↔ k ∈ c.map Prod.fst := by
  rw [← objGet_isSome_iff, objGet_initParameters, lastVal_isSome_iff]

theorem nodup_objKeys_foldl (c : List (String × String)) :
    ∀ (m : List (String × String)), (objKeys m).Nodup →
      (objKeys (c.foldl (fun m e => objSet m e.1 e.2) m)).Nodup := by
  induction c with
  | nil => intro m h; exact h
  | cons e rest ih =>
      intro m h
      rw [List.foldl_cons]
      exact ih _ (nodup_objKeys_objSet m e.1 e.2 h)

theorem nodup_objKeys_initParameters (c : List (String × String)) :
    (objKeys (initParameters c)).Nodup :=
  nodup_objKeys_foldl c [] (by simp [objKeys])

/-! ### Subscription-map and mutation-replay lemmas -/

theorem mapGet_mapPushAt_self (s : List (String × List Nat)) (k : String) (cb : Nat) :
    mapGet (mapPushAt s k cb) k = (mapGet s k).map (fun l => l ++ [cb]) := by
  induction s with
  | nil => rfl
  | cons e rest ih =>
      show mapGet ((if e.1 = k then (e.1, e.2 ++ [cb]) else e) :: mapPushAt rest k cb) k = _
      by_cases he : e.1 = k
      · rw [if_pos he]
        simp [mapGet, he]
      · rw [if_neg he]
        simp [mapGet, he, ih]

theorem mapGet_append (s t : List (String × List Nat)) (k : String) :
    mapGet (s ++ t) k =
      match mapGet s k with
      | some l => some l
      | none => mapGet t k := by
  induction s with
  | nil => rfl
  | cons e rest ih =>
      by_cases he : e.1 = k
      · simp [mapGet, he]
      · simp [mapGet, he, ih]

theorem mapPushAt_append (s t : List (String × List Nat)) (k : String) (cb : Nat) :
    mapPushAt (s ++ t) k cb = mapPushAt s k cb ++ mapPushAt t k cb := by
  simp [mapPushAt]

theorem mapGet_subscribe_self (pm : PM) (k : String) (cb : Nat) :
    mapGet (subscribe pm k cb).subscribers k =
      some (mapGetD pm.subscribers k [] ++ [cb]) := by
  unfold subscribe
  cases hg : mapGet pm.subscribers k with
  | some l =>
      have hHas : mapHas pm.subscribers k = true := by simp [mapHas, hg]
      simp only [hHas, if_pos]
      rw [mapGet_mapPushAt_self, hg]
      simp [mapGetD, hg]
  | none =>
      have hHas : mapHas pm.subscribers k = false := by simp [mapHas, hg]
      simp only [hHas, Bool.false_eq_true, if_neg, not_false_iff]
      rw [mapPushAt_append, mapGet_append, mapGet_mapPushAt_self, hg]
      have hone : mapPushAt [(k, [])] k cb = [(k, [cb])] := by
        show [if k = k then ((k : String), ([] : List Nat) ++ [cb]) else (k, [])] = _
        rw [if_pos rfl]
        rfl
      rw [hone]
      simp [mapGetD, hg, mapGet]

theorem subscribe_parameters (pm : PM) (k : String) (cb : Nat) :
    (subscribe pm k cb).parameters = pm.parameters := rfl

theorem updateParameter_parameters (pm : PM) (k v : String) :
    (updateParameter pm k v).1.parameters = objSet pm.parameters k v := rfl

theorem updateParameter_subscribers (pm : PM) (k v : String) :
    (updateParameter pm k v).1.subscribers = pm.subscribers := rfl

theorem applyUpdates_cons (pm : PM) (e : String × String)
    (us : List (String × String)) :
    applyUpdates pm (e :: us) = applyUpdates (updateParameter pm e.1 e.2).1 us := rfl

theorem mem_objKeys_applyUpdates (us : List (String × String)) :
    ∀ (pm : PM) (k : String), k ∈ objKeys pm.parameters →
      k ∈ objKeys (applyUpdates pm us).parameters := by
  induction us with
  | nil => intro pm k h; exact h
  | cons e rest ih =>
      intro pm k h
      rw [applyUpdates_cons]
      apply ih
      rw [updateParameter_parameters, objKeys_objSet]
      split
      · exact h
      · exact List.mem_append_left _ h

theorem nodup_objKeys_applyUpdates (us : List (String × String)) :
    ∀ (pm : PM), (objKeys pm.parameters).Nodup →
      (objKeys (applyUpdates pm us).parameters).Nodup := by
  induction us with
  | nil => intro pm h; exact h
  | cons e rest ih =>
      intro pm h
      rw [applyUpdates_cons]
      apply ih
      rw [updateParameter_parameters]
      exact nodup_objKeys_objSet pm.parameters e.1 e.2 h

theorem appApplyUpdates_mgr (us : List (String × String)) :
    ∀ (a : App), (appApplyUpdates a us).mgr = a.mgr := by
  induction us with
  | nil => intro a; rfl
  | cons e rest ih => intro a; exact ih _

theorem appApplyUpdates_ui (us : List (String × String)) :
    ∀ (a : App), (appApplyUpdates a us).ui = a.ui := by
  induction us with
  | nil => intro a; rfl
  | cons e rest ih => intro a; exact ih _

/-! ### Load-order lemmas -/

theorem loadFromLocalStorage_obj (dom : Dom) (pm : PM) (S : List (String × String))
    (h : pm.storage = some (.obj S)) :
    loadFromLocalStorage dom pm = .ok (restoreAll dom pm S) := by
  unfold loadFromLocalStorage
  rw [h]
  rfl

theorem loadFromLocalStorage_none (dom : Dom) (pm : PM)
    (h : pm.storage = none) :
    loadFromLocalStorage dom pm = .ok (dom, pm) := by
  unfold loadFromLocalStorage
  rw [h]

theorem freshLoad_eq (dom : Dom) (query : List (String × String))
    (slot : Option StoredValue) :
    freshLoad dom query slot =
      loadFromLocalStorage (restoreAll dom (pmConstruct dom slot query) query).1
        (restoreAll dom (pmConstruct dom slot query) query).2 := rfl

/-! ### Claims -/

/-- C1, counterexample. The claim says query-string restoration takes
precedence over durable-storage restoration, i.e. with the stored
snapshot holding `k=A` and the query string holding `k=B` a fresh load
yields `get(k) = B`. On the code the opposite holds: `loadFromURLParams`
runs first and `loadFromLocalStorage` runs second and overwrites, so a
fresh load of a page with a control `k`, query `k=B` and stored snapshot
`k=A` yields `get(k) = A`, not `B`. -/
theorem C1_counterexample :
    (freshLoad
        { controls := [("k", "init")], navPages := registeredPages,
          contentPages := registeredPages }
        [("k", "B")] (some (.obj [("k", "A")]))).map
      (fun r => getParameter r.2 "k") = .ok (some "A") ∧
    (Except.ok (some "A") : Except JsError (Option String)) ≠ .ok (some "B") := by
  constructor
  · decide
  · decide

/-- C1, amended: durable-storage restoration takes precedence over
query-string restoration for keys present in both. Startup runs
`loadFromURLParams()` first and `loadFromLocalStorage()` second
(lines 121-124), and the second overwrites the first, so for every
parameter key `k` with a form control that appears in the stored
snapshot with value `A` and in the query string with value `B`, after
startup restoration `get(k)` returns `A`, the stored value. -/
theorem C1_storage_wins (dom : Dom) (query S : List (String × String))
    (k A B : String) (hk : k ∈ domKeys dom) (hS : objGet S k = some A)
    (hnd : (S.map Prod.fst).Nodup) (_hq : (k, B) ∈ query) :
    (freshLoad dom query (some (.obj S))).map (fun r => getParameter r.2 k)
      = .ok (some A) := by
  rw [freshLoad_eq]
  rw [loadFromLocalStorage_obj _ _ S (restoreAll_storage _ _ _)]
  simp only [Except.map]
  show Except.ok (objGet (restoreAll _ _ S).2.parameters k) = _
  rw [restoreAll_objGet, restoreAll_domKeys, if_pos hk,
    lastVal_eq_objGet k S hnd, hS]

/-- C1 witness: the amended statement at a concrete input. -/
theorem C1_storage_wins_witness :
    (freshLoad
        { controls := [("k", "init")], navPages := registeredPages,
          contentPages := registeredPages }
        [("k", "B")] (some (.obj [("k", "A")]))).map
      (fun r => getParameter r.2 "k") = .ok (some "A") :=
  C1_storage_wins _ [("k", "B")] [("k", "A")] "k" "A" "B"
    (by decide) (by decide) (by decide) (by decide)

/-- C2, counterexample. The claim says restoring from local storage
never raises and treats a malformed stored string as absent. On the
code, `loadFromLocalStorage` calls `JSON.parse` with no try/catch
(line 82), so a stored text that is not valid JSON makes the restore
throw a `SyntaxError` instead of completing as a no-op. -/
theorem C2_counterexample :
    freshLoad
        { controls := [("k", "init")], navPages := registeredPages,
          contentPages := registeredPages }
        [] (some (.corrupt "\x7b")) = .error (.jsonErr "\x7b") := by
  decide

/-- C2, amended: a missing stored item (null) is treated as absent and
restoration is a no-op leaving the in-memory mapping unchanged, but a
stored string that is not valid JSON makes `JSON.parse` throw a
`SyntaxError` which propagates out of `loadFromLocalStorage` (the
mapping is not modified, since the parse precedes every write). -/
theorem C2_malformed_throws (dom : Dom) (pm : PM) :
    (pm.storage = none → loadFromLocalStorage dom pm = .ok (dom, pm)) ∧
    (∀ s, pm.storage = some (.corrupt s) →
      loadFromLocalStorage dom pm = .error (.jsonErr s)) := by
  constructor
  · intro h
    exact loadFromLocalStorage_none dom pm h
  · intro s h
    unfold loadFromLocalStorage
    rw [h]
    rfl

/-- C2 witness: the amended statement at concrete inputs. -/
theorem C2_malformed_throws_witness :
    loadFromLocalStorage
        { controls := [], navPages := [], contentPages := [] }
        { parameters := [], subscribers := [], storage := none, urlQuery := [] }
      = .ok ({ controls := [], navPages := [], contentPages := [] },
             { parameters := [], subscribers := [], storage := none, urlQuery := [] }) ∧
    loadFromLocalStorage
        { controls := [], navPages := [], contentPages := [] }
        { parameters := [], subscribers := [], storage := some (.corrupt "x"),
          urlQuery := [] }
      = .error (.jsonErr "x") :=
  ⟨(C2_malformed_throws _ _).1 rfl, (C2_malformed_throws _ _).2 "x" rfl⟩

/-- C3, counterexample. The claim says `switchPage(name)` fails silently
for an unregistered name, with no raised error. On the code, for a name
with no matching `.nav-btn` in the shipped markup,
`document.querySelector([data-page=name])` returns `null` and reading
`.classList` on it throws a TypeError (line 172). -/
theorem C3_counterexample :
    PageManager.switchPage
        { controls := [], navPages := registeredPages,
          contentPages := registeredPages }
        { currentPage := "overview", pages := registeredPages }
        { navActive := ["overview"], contentActive := ["overview"] }
        "nonexistent" = .error classListOfNull := by
  decide

/-- C3, amended: for every name with no matching navigation control in
the DOM (which is the case for every unregistered page name in the
shipped markup), `switchPage(name)` raises a TypeError on the missing
DOM lookup; the throw happens before either lifecycle hook runs and
before the recorded current page is updated. -/
theorem C3_unknown_throws (dom : Dom) (mgr : PageMgr) (ui : UiState)
    (name : String) (h : name ∉ dom.navPages) :
    PageManager.switchPage dom mgr ui name = .error classListOfNull := by
  unfold PageManager.switchPage
  rw [if_neg h]

/-- C3 witness: the amended statement at a concrete input. -/
theorem C3_unknown_throws_witness :
    PageManager.switchPage
        { controls := [], navPages := registeredPages,
          contentPages := registeredPages }
        { currentPage := "overview", pages := registeredPages }
        { navActive := ["overview"], contentActive := ["overview"] }
        "monitoring" = .error classListOfNull :=
  C3_unknown_throws _ _ _ "monitoring" (by decide)

/-- C4: for every single mutation through `updateParameter`, the
invocation trace equals the key's subscriber list mapped to key-specific
invocations (so each key-specific callback fires exactly once, in
registration order, receiving the new value, the previous value and the
key) followed by the wildcard subscriber list mapped to wildcard
invocations (so every wildcard callback fires exactly once, strictly
after all key-specific callbacks, receiving the updated snapshot and the
key); and `subscribe` appends at the end of the key's list, so list
order is registration order. -/
theorem C4_notification_order (pm : PM) (key value : String) (cb : Nat) :
    (updateParameter pm key value).2 =
      (mapGetD pm.subscribers key []).map
        (fun c => CbEvent.keyCall c value (objGet pm.parameters key) key) ++
      (mapGetD pm.subscribers "*" []).map
        (fun c => CbEvent.wildCall c (objSet pm.parameters key value) key) ∧
    mapGetD (subscribe pm key cb).subscribers key [] =
      mapGetD pm.subscribers key [] ++ [cb] := by
  constructor
  · show notifySubscribers { pm with parameters := objSet pm.parameters key value }
      key value (objGet pm.parameters key) = _
    unfold notifySubscribers
    cases h1 : mapGet pm.subscribers key <;>
      cases h2 : mapGet pm.subscribers "*" <;>
        simp [mapGetD, h1, h2, getAllParameters]
  · rw [mapGetD, mapGet_subscribe_self]
    rfl

/-- C5: round-trip persistence. For every parameter mapping produced by
setting values through the store (a fresh store followed by any sequence
of `updateParameter` calls), serializing it to the durable slot and
restoring on a fresh load with no query string yields, at every key, the
original mapping restricted to the known keys (the keys with a matching
form control): known keys read back their stored value and all other
keys are absent. -/
theorem C5_roundtrip (dom : Dom) (us : List (String × String)) (k : String) :
    (freshLoad dom [] (some (.obj (paramsSetThroughStore dom us)))).map
        (fun r => getParameter r.2 k)
      = .ok (if k ∈ domKeys dom
             then objGet (paramsSetThroughStore dom us) k
             else none) := by
  have hnd : ((paramsSetThroughStore dom us).map Prod.fst).Nodup :=
    nodup_objKeys_applyUpdates us (pmConstruct dom none [])
      (nodup_objKeys_initParameters dom.controls)
  rw [freshLoad_eq]
  rw [show restoreAll dom
        (pmConstruct dom (some (.obj (paramsSetThroughStore dom us))) []) []
      = (dom, pmConstruct dom (some (.obj (paramsSetThroughStore dom us))) [])
      from rfl]
  rw [loadFromLocalStorage_obj _ _ _ rfl]
  simp only [Except.map]
  show Except.ok (objGet (restoreAll _ _ (paramsSetThroughStore dom us)).2.parameters k) = _
  rw [restoreAll_objGet]
  by_cases hk : k ∈ domKeys dom
  · rw [if_pos hk, if_pos hk]
    have hmem : k ∈ objKeys (paramsSetThroughStore dom us) := by
      apply mem_objKeys_applyUpdates
      show k ∈ objKeys (initParameters dom.controls)
      exact (mem_objKeys_initParameters dom.controls k).mpr hk
    have hsome : (objGet (paramsSetThroughStore dom us) k).isSome :=
      (objGet_isSome_iff _ k).mpr hmem
    rw [lastVal_eq_objGet k _ hnd]
    cases hg : objGet (paramsSetThroughStore dom us) k with
    | none => rw [hg] at hsome; simp at hsome
    | some v => rfl
  · rw [if_neg hk, if_neg hk]
    show Except.ok (objGet (initParameters dom.controls) k) = _
    rw [objGet_initParameters]
    have : ¬ (lastVal k dom.controls).isSome := by
      rw [lastVal_isSome_iff]
      exact hk
    cases hl : lastVal k dom.controls with
    | none => rfl
    | some v => rw [hl] at this; simp at this

/-- C5 witness: the round-trip at a concrete store session (two controls,
one of which is edited twice, and one unknown key set through the
store). -/
theorem C5_roundtrip_witness :
    (freshLoad
        { controls := [("num-satellites", "4"), ("frequency", "2100")],
          navPages := registeredPages, contentPages := registeredPages }
        []
        (some (.obj (paramsSetThroughStore
          { controls := [("num-satellites", "4"), ("frequency", "2100")],
            navPages := registeredPages, contentPages := registeredPages }
          [("num-satellites", "6"), ("ghost", "1"), ("num-satellites", "8")])))).map
      (fun r => getParameter r.2 "num-satellites") = .ok (some "8") := by
  have h := C5_roundtrip
    { controls := [("num-satellites", "4"), ("frequency", "2100")],
      navPages := registeredPages, contentPages := registeredPages }
    [("num-satellites", "6"), ("ghost", "1"), ("num-satellites", "8")]
    "num-satellites"
  rw [h]
  decide

/-- C7: for every switch from a registered page `A` to a registered page
`B` present in the DOM, and regardless of how many parameter mutations
occurred beforehand (they leave the coordinator untouched), the
lifecycle trace of the switch is exactly `[exit A, enter B]`: `A`'s exit
hook runs exactly once and completes strictly before `B`'s enter hook
begins. -/
theorem C7_exit_before_enter (dom : Dom) (a : App) (A B : String)
    (us : List (String × String))
    (hcur : a.mgr.currentPage = A) (hA : A ∈ a.mgr.pages) (hB : B ∈ a.mgr.pages)
    (hnav : B ∈ dom.navPages) (hcontent : B ∈ dom.contentPages) :
    (appSwitchPage dom (appApplyUpdates a us) B).map (fun r => r.2)
      = .ok [LifeEvent.pageExit A, LifeEvent.pageEnter B] := by
  unfold appSwitchPage
  rw [appApplyUpdates_mgr, appApplyUpdates_ui]
  unfold PageManager.switchPage
  rw [if_pos hnav, if_pos hcontent]
  simp [hcur, hA, hB, Except.map]

/-- C7 witness: a concrete switch from `overview` to `coverage` after a
parameter edit. -/
theorem C7_exit_before_enter_witness :
    (appSwitchPage
        { controls := [("num-satellites", "4")], navPages := registeredPages,
          contentPages := registeredPages }
        (appApplyUpdates
          { pm := { parameters := [("num-satellites", "4")], subscribers := [],
                    storage := none, urlQuery := [] },
            mgr := { currentPage := "overview", pages := registeredPages },
            ui := { navActive := ["overview"], contentActive := ["overview"] } }
          [("num-satellites", "8")])
        "coverage").map (fun r => r.2)
      = .ok [LifeEvent.pageExit "overview", LifeEvent.pageEnter "coverage"] :=
  C7_exit_before_enter _ _ "overview" "coverage" _
    rfl (by decide) (by decide) (by decide) (by decide)

theorem length_pushShift {α : Type} (cap : Nat) (data : List α) (x : α)
    (h : data.length ≤ cap) :
    (if (data ++ [x]).length > cap then (data ++ [x]).tail else data ++ [x]).length
      ≤ cap := by
  by_cases hlen : (data ++ [x]).length > cap
  · rw [if_pos hlen, List.length_tail]
    simp only [List.length_append, List.length_singleton] at hlen ⊢
    omega
  · rw [if_neg hlen]
    simp only [List.length_append, List.length_singleton] at hlen ⊢
    omega

theorem pushShift_evict {α : Type} (cap : Nat) (data : List α) (x : α)
    (hcap : 0 < cap) (h : data.length = cap) :
    (if (data ++ [x]).length > cap then (data ++ [x]).tail else data ++ [x])
      = data.tail ++ [x] := by
  have hlen : (data ++ [x]).length > cap := by
    simp only [List.length_append, List.length_singleton]
    omega
  rw [if_pos hlen]
  cases data with
  | nil => simp only [List.length_nil] at h; omega
  | cons a rest => rfl

/-- C6: rolling sample buffers. After every append, the performance
buffer (capacity 60) and the latency buffer (capacity 50) have length at
most their capacity, and an append to a full buffer evicts exactly the
oldest sample while preserving the order of the remaining samples
(result `data.tail ++ [sample]`). -/
theorem C6_rolling_buffer (pd : List PerformanceMetrics.PerfSample)
    (ps : PerformanceMetrics.PerfSample) (md : List Monitoring.MonSample)
    (ms : Monitoring.MonSample) :
    (pd.length ≤ PerformanceMetrics.maxDataPoints →
      (PerformanceMetrics.updateRealTimeMetrics pd ps).length
        ≤ PerformanceMetrics.maxDataPoints) ∧
    (pd.length = PerformanceMetrics.maxDataPoints →
      PerformanceMetrics.updateRealTimeMetrics pd ps = pd.tail ++ [ps]) ∧
    (md.length ≤ Monitoring.maxDataPoints →
      (Monitoring.updateMetrics md ms).length ≤ Monitoring.maxDataPoints) ∧
    (md.length = Monitoring.maxDataPoints →
      Monitoring.updateMetrics md ms = md.tail ++ [ms]) := by
  refine ⟨?_, ?_, ?_, ?_⟩
  · intro h
    exact length_pushShift PerformanceMetrics.maxDataPoints pd ps h
  · intro h
    exact pushShift_evict PerformanceMetrics.maxDataPoints pd ps (by decide) h
  · intro h
    exact length_pushShift Monitoring.maxDataPoints md ms h
  · intro h
    exact pushShift_evict Monitoring.maxDataPoints md ms (by decide) h

/-- C6 witness: both buffers at full capacity. -/
theorem C6_rolling_buffer_witness :
    (PerformanceMetrics.updateRealTimeMetrics
        (List.replicate 60 ⟨0, 0, 0⟩) ⟨1, 0, 0⟩).length
      ≤ PerformanceMetrics.maxDataPoints ∧
    PerformanceMetrics.updateRealTimeMetrics (List.replicate 60 ⟨0, 0, 0⟩) ⟨1, 0, 0⟩
      = (List.replicate 60 (⟨0, 0, 0⟩ : PerformanceMetrics.PerfSample)).tail
          ++ [⟨1, 0, 0⟩] ∧
    (Monitoring.updateMetrics (List.replicate 50 ⟨0, 0⟩) ⟨1, 0⟩).length
      ≤ Monitoring.maxDataPoints ∧
    Monitoring.updateMetrics (List.replicate 50 ⟨0, 0⟩) ⟨1, 0⟩
      = (List.replicate 50 (⟨0, 0⟩ : Monitoring.MonSample)).tail ++ [⟨1, 0⟩] := by
  have h := C6_rolling_buffer (List.replicate 60 ⟨0, 0, 0⟩) ⟨1, 0, 0⟩
    (List.replicate 50 ⟨0, 0⟩) ⟨1, 0⟩
  exact ⟨h.1 (by simp [PerformanceMetrics.maxDataPoints]),
    h.2.1 (by simp [PerformanceMetrics.maxDataPoints]),
    h.2.2.1 (by simp [Monitoring.maxDataPoints]),
    h.2.2.2 (by simp [Monitoring.maxDataPoints])⟩

/-- C8: timer cancellation on page exit is total and idempotent. The
exit hook is exactly `stopMetricsUpdate`; when no timer was ever started
(`metricsInterval` still undefined) the stop is a no-op; and on a
scheduler state with unique interval ids (which `setInterval`
guarantees), stopping twice equals stopping once — the second
`clearInterval` call finds nothing to cancel and does nothing. All three
operations are total functions: no code path throws. -/
theorem C8_stop_idempotent (st : PerformanceMetrics.TimerState) :
    PerformanceMetrics.onPageExit st = PerformanceMetrics.stopMetricsUpdate st ∧
    (st.metricsInterval = none → PerformanceMetrics.stopMetricsUpdate st = st) ∧
    (st.activeTimers.Nodup →
      PerformanceMetrics.stopMetricsUpdate (PerformanceMetrics.stopMetricsUpdate st)
        = PerformanceMetrics.stopMetricsUpdate st) := by
  refine ⟨rfl, ?_, ?_⟩
  · intro h
    unfold PerformanceMetrics.stopMetricsUpdate
    rw [h]
  · intro hnd
    cases hmi : st.metricsInterval with
    | none =>
        have h1 : PerformanceMetrics.stopMetricsUpdate st = st := by
          unfold PerformanceMetrics.stopMetricsUpdate
          rw [hmi]
        rw [h1, h1]
    | some tid =>
        have h2 : (st.activeTimers.erase tid).erase tid = st.activeTimers.erase tid := by
          apply List.erase_of_not_mem
          intro hmem
          have := (List.Nodup.mem_erase_iff hnd).mp hmem
          exact this.1 rfl
        simp [PerformanceMetrics.stopMetricsUpdate, hmi, h2]

/-- C8 witness: stop with no timer ever started, and double-stop with a
running timer. -/
theorem C8_stop_idempotent_witness :
    PerformanceMetrics.stopMetricsUpdate ⟨none, []⟩
      = (⟨none, []⟩ : PerformanceMetrics.TimerState) ∧
    PerformanceMetrics.stopMetricsUpdate
        (PerformanceMetrics.stopMetricsUpdate ⟨some 1, [1]⟩)
      = PerformanceMetrics.stopMetricsUpdate ⟨some 1, [1]⟩ :=
  ⟨(C8_stop_idempotent _).2.1 rfl, (C8_stop_idempotent _).2.2 (by decide)⟩

/-- C9: every numeric parameter read uses `parse(value) || default`, so
any value whose parse result is `0` or `NaN` — including the literal
string `"0"`, the empty string and a missing key — is replaced by the
page's hard-coded default (4 satellites, 30 degrees, 2100 MHz), making
an explicit zero indistinguishable from a missing or unparseable
value. -/
theorem C9_zero_falls_back (params : List (String × String)) :
    ((objGet params "num-satellites").bind parseIntJS = some 0 ∨
        (objGet params "num-satellites").bind parseIntJS = none →
      CoverageAnalysis.numSats params = 4) ∧
    (∀ n, (objGet params "start-elevation").bind parseFloatJS = some n →
      n.mant = 0 → SystemOverview.startElevation params = JsNum.mk 30 0) ∧
    ((objGet params "start-elevation").bind parseFloatJS = none →
      SystemOverview.startElevation params = JsNum.mk 30 0) ∧
    (∀ n, (objGet params "frequency").bind parseFloatJS = some n →
      n.mant = 0 → PerformanceMetrics.frequency params = JsNum.mk 2100 0) ∧
    ((objGet params "frequency").bind parseFloatJS = none →
      PerformanceMetrics.frequency params = JsNum.mk 2100 0) ∧
    CoverageAnalysis.numSats [("num-satellites", "0")]
      = CoverageAnalysis.numSats [] ∧
    CoverageAnalysis.numSats [("num-satellites", "")]
      = CoverageAnalysis.numSats [] ∧
    SystemOverview.startElevation [("start-elevation", "0")]
      = SystemOverview.startElevation [] ∧
    PerformanceMetrics.frequency [("frequency", "0")]
      = PerformanceMetrics.frequency [("frequency", "")] := by
  refine ⟨?_, ?_, ?_, ?_, ?_, by decide, by decide, by decide, by decide⟩
  · intro h
    unfold CoverageAnalysis.numSats
    rcases h with h | h <;> rw [h] <;> rfl
  · intro n h hm
    unfold SystemOverview.startElevation
    rw [h]
    simp [jsOrNum, hm]
  · intro h
    unfold SystemOverview.startElevation
    rw [h]
    rfl
  · intro n h hm
    unfold PerformanceMetrics.frequency
    rw [h]
    simp [jsOrNum, hm]
  · intro h
    unfold PerformanceMetrics.frequency
    rw [h]
    rfl

/-- C9 witness: the fallbacks at `"0"`, `"0"` and the empty string. -/
theorem C9_zero_falls_back_witness :
    CoverageAnalysis.numSats
        [("num-satellites", "0"), ("start-elevation", "0"), ("frequency", "")] = 4 ∧
    SystemOverview.startElevation
        [("num-satellites", "0"), ("start-elevation", "0"), ("frequency", "")]
      = JsNum.mk 30 0 ∧
    PerformanceMetrics.frequency
        [("num-satellites", "0"), ("start-elevation", "0"), ("frequency", "")]
      = JsNum.mk 2100 0 :=
  ⟨(C9_zero_falls_back _).1 (Or.inl (by decide)),
   (C9_zero_falls_back _).2.1 (JsNum.mk 0 0) (by decide) rfl,
   (C9_zero_falls_back _).2.2.2.2.1 (by decide)⟩

/-- C10: at construction the `PageManager` records `overview` as current
without invoking any enter hook (the construction-time lifecycle trace
is empty), and the first `switchPage` away from `overview` to a
registered page `B` in the DOM emits `exit overview` first — so
`overview`'s exit hook runs even though no `enter overview` event exists
anywhere in the combined trace. -/
theorem C10_overview_never_entered (dom : Dom) (ui : UiState) (B : String)
    (hreg : B ∈ registeredPages) (hnav : B ∈ dom.navPages)
    (hcontent : B ∈ dom.contentPages) (hne : B ≠ "overview") :
    PageManager.construct.1.currentPage = "overview" ∧
    PageManager.construct.2 = [] ∧
    (PageManager.switchPage dom PageManager.construct.1 ui B).map (fun r => r.2.2)
      = .ok [LifeEvent.pageExit "overview", LifeEvent.pageEnter B] ∧
    LifeEvent.pageEnter "overview" ∉
      PageManager.construct.2 ++
        [LifeEvent.pageExit "overview", LifeEvent.pageEnter B] := by
  refine ⟨rfl, rfl, ?_, ?_⟩
  · unfold PageManager.switchPage
    rw [if_pos hnav, if_pos hcontent]
    have hov : PageManager.construct.1.currentPage ∈ PageManager.construct.1.pages := by
      decide
    simp only [Except.map]
    rw [if_pos hov, if_pos (show B ∈ PageManager.construct.1.pages from hreg)]
    rfl
  · intro hmem
    have hmem' : LifeEvent.pageEnter "overview"
        ∈ [LifeEvent.pageExit "overview", LifeEvent.pageEnter B] := hmem
    rcases List.mem_cons.mp hmem' with hmem2 | hmem2
    · exact LifeEvent.noConfusion hmem2
    · rcases List.mem_cons.mp hmem2 with hmem3 | hmem3
      · exact hne (LifeEvent.pageEnter.inj hmem3).symm
      · exact absurd hmem3 (List.not_mem_nil _)

/-- C10 witness: the first switch to `coverage`. -/
theorem C10_overview_never_entered_witness :
    (PageManager.switchPage
        { controls := [], navPages := registeredPages,
          contentPages := registeredPages }
        PageManager.construct.1
        { navActive := [], contentActive := [] } "coverage").map (fun r => r.2.2)
      = .ok [LifeEvent.pageExit "overview", LifeEvent.pageEnter "coverage"] :=
  (C10_overview_never_entered _ _ "coverage"
    (by decide) (by decide) (by decide) (by decide)).2.2.1

example : objGet (objSet [("a", "1")] "b" "2") "b" = some "2" := by decide
example : lastVal "a" [("a", "1"), ("b", "2"), ("a", "3")] = some "3" := by decide
example : parseIntJS "0" = some 0 := by decide
example : parseIntJS "" = none := by decide
example : parseIntJS "42abc" = some 42 := by decide
example : parseIntJS "-7" = some (-7) := by decide
example : parseFloatJS "0.0" = some (JsNum.mk 0 1) := by decide
example : parseFloatJS ".5" = some (JsNum.mk 5 1) := by decide
example : parseFloatJS "30" = some (JsNum.mk 30 0) := by decide
example : parseFloatJS "abc" = none := by decide
